import Mathlib

/-!
Shallow embedding of the PubChem MCP server (`pubchem_server.py`): the
proxy/transport configuration built at startup, the startup proxy check,
`compound_to_dict`, the resolver-with-retries `search_by_name_with_retries`,
and the sequential batch tool `search_compounds_by_name`.

The upstream PubChemPy client (`pcp.get_compounds`, `pcp.get_cids`,
`pcp.Compound.from_cid`) is an external collaborator; its behaviour on each
attempt is a parameter (`AttemptBehavior`): each call either returns a value
or raises an exception (`PcpError`).  Every outbound request the code issues
is recorded in a `Call` trace together with the proxies argument it was
given, so transport claims can be stated over traces.
-/

set_option autoImplicit false

namespace PubChem

/-- A JSON-ish value appearing in a compound property dictionary. -/
inductive JVal where
  | jnum (n : Int)
  | jstr (s : String)
  | jlist (l : List String)
deriving DecidableEq, Repr

/-- An exception raised by a PubChemPy call: `http` is `pcp.PubChemHTTPError`
(carrying `str(e)`), `general` is any other `Exception`. -/
inductive PcpError where
  | http (msg : String)
  | general (msg : String)
deriving DecidableEq, Repr

/-- `pat.isPrefixOf l` somewhere in `l`: substring occurrence on char lists. -/
def listContainsSub (pat : List Char) : List Char → Bool
  | [] => pat.isEmpty
  | c :: rest => pat.isPrefixOf (c :: rest) || listContainsSub pat rest

/-- Python `pat in s` on strings. -/
def strContains (s pat : String) : Bool :=
  listContainsSub pat.toList s.toList

/-- Line 141: `'Server Busy' in str(e) or '503' in str(e)` for a
`PubChemHTTPError`; any other exception is never transient. -/
def isTransient : PcpError → Bool
  | .http m => strContains m "Server Busy" || strContains m "503"
  | .general _ => false

/-- A compound stub as returned by `pcp.get_compounds`: only the `cid`
attribute matters to the resolver (`none` models a missing/None cid). -/
structure PCCompound where
  cid : Option Int
deriving DecidableEq, Repr

/-- One entry of the list returned by `pcp.get_cids(name, 'name', 'substance')`:
a dict that may hold a `CID` key mapping to a list of identifiers. -/
structure SubstanceEntry where
  hasCID : Bool
  cids : List Int
deriving DecidableEq, Repr

/-- A full compound object as returned by `pcp.Compound.from_cid`:
`toDictResult` is what `compound.to_dict()` does (raises, or returns a
property dictionary). -/
structure RawCompound where
  toDictResult : Except String (List (String × JVal))
deriving Repr

/-- The upstream behaviour of one resolution attempt: what each of the three
PubChemPy calls would do if issued. -/
structure AttemptBehavior where
  getCompounds : Except PcpError (List PCCompound)
  get_cids : Except PcpError (List SubstanceEntry)
  from_cid : Int → Except PcpError (Option RawCompound)

/-- The `proxies` dictionary handed to `requests`/PubChemPy (lines 76-79). -/
structure Proxies where
  httpUrl : String
  httpsUrl : String
deriving DecidableEq, Repr

/-- One observable action of the program: an outbound request (tagged with the
proxies argument it carried) or a retry sleep. -/
inductive Call where
  | primaryQ (name : String) (px : Option Proxies)
  | secondaryQ (name : String) (px : Option Proxies)
  | fetchQ (cid : Int) (px : Option Proxies)
  | sleepRetry (seconds : Int)
deriving DecidableEq, Repr

/-- The proxies argument a request call carried; `none` for non-request events. -/
def callProxies : Call → Option (Option Proxies)
  | .primaryQ _ px => some px
  | .secondaryQ _ px => some px
  | .fetchQ _ px => some px
  | .sleepRetry _ => none

/-- The per-name result dict: either the projected record plus `search_term`,
or `{"error": ..., "compound_name": ...}`. -/
inductive Outcome where
  | success (props : List (String × Option JVal)) (search_term : String)
  | failure (error : String) (compound_name : String)
deriving DecidableEq, Repr

/-- Line 106: the canonical attribute keys. -/
def keys_to_ensure : List String :=
  ["cid", "iupac_name", "molecular_formula", "molecular_weight",
   "monoisotopic_mass", "synonyms", "charge"]

/-- Python `props.get(key)`. -/
def lookupProp (props : List (String × JVal)) (k : String) : Option JVal :=
  match props.find? (fun p => p.fst == k) with
  | some p => some p.snd
  | none => none

/-- Lines 101-110: `compound_to_dict`.  `None` input, or `to_dict()` raising,
yields `None`; otherwise every canonical key is present, missing upstream
fields defaulting to `None`. -/
def compound_to_dict : Option RawCompound → Option (List (String × Option JVal))
  | none => none
  | some c =>
    match c.toDictResult with
    | .error _ => none
    | .ok props => some (keys_to_ensure.map (fun k => (k, lookupProp props k)))

/-- Line 131: the not-found failure dict. -/
def notFoundOutcome (name : String) : Outcome :=
  .failure (s!"Compound \x27{name}\x27 not found in PubChem.") name

/-- Result of one pass through the `try` body: either `return`ed a value, or
hit the transient branch (`time.sleep; continue`). -/
inductive AttemptStep where
  | done (o : Outcome)
  | transient
deriving DecidableEq, Repr

/-- Lines 140-150: the two `except` clauses.  A busy/503 `PubChemHTTPError`
is transient; any other `PubChemHTTPError` or general exception returns a
failure dict at once. -/
def handleError (name : String) (e : PcpError) : AttemptStep :=
  if isTransient e then .transient
  else
    match e with
    | .http _ =>
        .done (.failure (s!"Compound \x27{name}\x27 not found in PubChem (HTTP Error).") name)
    | .general m =>
        .done (.failure (s!"General error for \x27{name}\x27: {m}") name)

/-- Python truthiness of the working `cid` variable. -/
def cidTruthy : Option Int → Bool
  | some n => n != 0
  | none => false

/-- Lines 119-121: the cid taken from the primary (Compound-domain) result,
`some` only when `compounds[0].cid` is present and truthy. -/
def primaryCid (compounds : List PCCompound) : Option Int :=
  match compounds with
  | [] => none
  | c :: _ => if cidTruthy c.cid then c.cid else none

/-- Lines 124-128: the cid assigned from the substance-domain result: only the
FIRST entry is inspected, and only when its `CID` key is present with a
non-empty list (the assigned value may still be `0`, caught later by
`if not cid`). -/
def substanceCid (entries : List SubstanceEntry) : Option Int :=
  match entries with
  | [] => none
  | fr :: _ => if fr.hasCID && !fr.cids.isEmpty then some (fr.cids.headD 0) else none

/-- Lines 132-139: what the fetch stage returns for a resolved cid; the
`from_cid` call is inside the same `try`, so its exceptions reach the same
`except` clauses. -/
def fetchStep (name : String) (b : AttemptBehavior) (cid : Int) : AttemptStep :=
  match b.from_cid cid with
  | .error e => handleError name e
  | .ok fc =>
    match compound_to_dict fc with
    | some d => .done (.success d name)
    | none =>
      .done (.failure (s!"Could not process full record for \x27{name}\x27 (CID: {cid}).") name)

/-- The fetch stage together with its request trace. -/
def fetchStage (name : String) (px : Option Proxies) (b : AttemptBehavior)
    (cid : Int) (callsSoFar : List Call) : AttemptStep × List Call :=
  (fetchStep name b cid, callsSoFar ++ [Call.fetchQ cid px])

/-- Lines 115-150: one pass through the `try` body (one attempt): primary
domain, fallback to substance domain, not-found check, fetch; exceptions at
any call are routed to `handleError`. -/
def runAttempt (name : String) (px : Option Proxies) (b : AttemptBehavior) :
    AttemptStep × List Call :=
  match b.getCompounds with
  | .error e => (handleError name e, [Call.primaryQ name px])
  | .ok compounds =>
    match primaryCid compounds with
    | some n => fetchStage name px b n [Call.primaryQ name px]
    | none =>
      match b.get_cids with
      | .error e => (handleError name e, [Call.primaryQ name px, Call.secondaryQ name px])
      | .ok entries =>
        match substanceCid entries with
        | some n =>
          if n != 0 then
            fetchStage name px b n [Call.primaryQ name px, Call.secondaryQ name px]
          else
            (.done (notFoundOutcome name), [Call.primaryQ name px, Call.secondaryQ name px])
        | none =>
          (.done (notFoundOutcome name), [Call.primaryQ name px, Call.secondaryQ name px])

/-- The exception one attempt raises (following the control flow of lines
115-139), `none` when the attempt raises nothing. -/
def fetchError (b : AttemptBehavior) (cid : Int) : Option PcpError :=
  match b.from_cid cid with
  | .error e => some e
  | .ok _ => none

def attemptError (b : AttemptBehavior) : Option PcpError :=
  match b.getCompounds with
  | .error e => some e
  | .ok compounds =>
    match primaryCid compounds with
    | some n => fetchError b n
    | none =>
      match b.get_cids with
      | .error e => some e
      | .ok entries =>
        match substanceCid entries with
        | some n => if n != 0 then fetchError b n else none
        | none => none

/-- What a whole `search_by_name_with_retries` call did: the returned dict,
how many passes through the loop body executed, and the request/sleep trace. -/
structure SearchResult where
  outcome : Outcome
  attemptsUsed : Nat
  calls : List Call
deriving DecidableEq, Repr

/-- Lines 114-152: the `for attempt in range(max_retries)` loop, from loop
index `attempt` with `fuel` iterations left; behaviour of attempt `i` is
`beh i`.  Exhausting the loop falls through to the line-152 failure dict. -/
def searchFrom (name : String) (px : Option Proxies) (beh : Nat → AttemptBehavior)
    (maxRetries : Nat) (retryDelay : Int) (attempt : Nat) : Nat → SearchResult
  | 0 =>
    ⟨.failure (s!"Failed to get data for \x27{name}\x27 after {maxRetries} retries.") name,
     0, []⟩
  | fuel + 1 =>
    match runAttempt name px (beh attempt) with
    | (.done o, tr) => ⟨o, 1, tr⟩
    | (.transient, tr) =>
      let r := searchFrom name px beh maxRetries retryDelay (attempt + 1) fuel
      ⟨r.outcome, r.attemptsUsed + 1, tr ++ Call.sleepRetry retryDelay :: r.calls⟩

/-- Lines 112-152: `search_by_name_with_retries(name, max_retries, retry_delay)`
(defaults 3, 5), parameterised by the proxies in scope and the upstream
behaviour of each attempt. -/
def search_by_name_with_retries (name : String) (px : Option Proxies)
    (beh : Nat → AttemptBehavior) (maxRetries : Nat) (retryDelay : Int) : SearchResult :=
  searchFrom name px beh maxRetries retryDelay 0 maxRetries

/-- Line 168: `PAUSE_BETWEEN_REQUESTS = 2.0` (seconds). -/
def PAUSE_BETWEEN_REQUESTS : ℚ := 2

/-- What one batch call did: per-name outcomes in order, the combined request
trace, and the list of inter-item pacing sleeps (seconds). -/
structure BatchResult where
  results : List Outcome
  calls : List Call
  pacing : List ℚ
deriving DecidableEq, Repr

/-- Lines 161-177: `search_compounds_by_name(names)`: strictly sequential,
each name searched with the default retry policy, result appended, then an
unconditional 2.0 s pause (also after the last item). -/
def search_compounds_by_name (px : Option Proxies)
    (behs : String → Nat → AttemptBehavior) : List String → BatchResult
  | [] => ⟨[], [], []⟩
  | n :: rest =>
    let r := search_by_name_with_retries n px (behs n) 3 5
    let b := search_compounds_by_name px behs rest
    ⟨r.outcome :: b.results, r.calls ++ b.calls, PAUSE_BETWEEN_REQUESTS :: b.pacing⟩

/-- The `[proxy]` section of `config.ini` (lines 65-70), after configparser
fallbacks have been applied. -/
structure ProxyConfig where
  use_proxy : Bool
  proxy_type : String
  host : String
  port : Int
deriving DecidableEq, Repr

/-- Line 72: the accepted proxy schemes. -/
def validTypes : List String := ["socks5h", "socks5", "http", "https"]

/-- Lines 68-74: lowercase the configured type, fall back to `socks5h` if it
is not recognised. -/
def effectiveType (t : String) : String :=
  let tl := t.toLower
  if validTypes.contains tl then tl else "socks5h"

/-- Lines 55-79: the module-level `proxies` value: `None` unless
`use_proxy` is true. -/
def buildProxies (cfg : ProxyConfig) : Option Proxies :=
  if cfg.use_proxy then
    let et := effectiveType cfg.proxy_type
    let h := cfg.host
    let p := cfg.port
    let url := s!"{et}://{h}:{p}"
    some ⟨url, url⟩
  else none

/-- Outcome of the startup identity-check request (lines 84-85): a 2xx
response body, or a `requests.exceptions.RequestException` (timeout,
connection refused, unsupported scheme, or `raise_for_status`). -/
inductive CheckOutcome where
  | response (body : String)
  | requestError (msg : String)
deriving DecidableEq, Repr

inductive LogLevel where
  | info
  | warning
  | critical
deriving DecidableEq, Repr

/-- Line 86: the expected Tor confirmation text. -/
def torConfirmation : String :=
  "Congratulations. This browser is configured to use Tor."

/-- Process state after module-level startup (lines 55-98): the proxies that
will be passed to every later request, the log levels the check emitted,
whether startup aborted, and whether the MCP server object was created
(line 98 runs unconditionally). -/
structure StartupState where
  proxies : Option Proxies
  checkLog : List LogLevel
  aborted : Bool
  serverStarted : Bool
deriving DecidableEq, Repr

/-- Lines 55-98: build `proxies`, run the identity check when proxying is
enabled (its `except requests.exceptions.RequestException` clause logs two
critical lines and falls through), then create the server. -/
def startupCheck (cfg : ProxyConfig) (check : CheckOutcome) : StartupState :=
  let px := buildProxies cfg
  let logs : List LogLevel :=
    if cfg.use_proxy then
      match check with
      | .response body =>
        if strContains body torConfirmation then [.info] else [.warning]
      | .requestError _ => [.critical, .critical]
    else [.info]
  ⟨px, logs, false, true⟩

/-- Serialisation of one outcome dict as sent to the LLM (key order as built
by the source: record keys then `search_term`, or `error` then
`compound_name`). -/
def serializeOutcome : Outcome → List (String × Option JVal)
  | .success props st => props ++ [("search_term", some (.jstr st))]
  | .failure err cn => [("error", some (.jstr err)), ("compound_name", some (.jstr cn))]

/-- The proxies arguments carried by the request calls of a trace, in order
(sleep events filtered out). -/
def requestProxies (l : List Call) : List (Option Proxies) :=
  l.filterMap callProxies

/-- The shape every outcome dict returned for `name` must have: a success
carries exactly the canonical keys and `search_term = name`; a failure
carries `compound_name = name`. -/
def outcomeShape (name : String) : Outcome → Prop
  | .success props st => props.map Prod.fst = keys_to_ensure ∧ st = name
  | .failure _ cn => cn = name

/-! Concrete upstream behaviours used to settle the scenario claims. -/

/-- The primary query raises a transient busy `PubChemHTTPError`. -/
def busyBeh : AttemptBehavior :=
  ⟨.error (.http "PUGREST.ServerBusy: Server Busy"), .ok [], fun _ => .ok none⟩

/-- The primary query resolves cid 2244 and the full record dictionary holds
only the cid (every other canonical field missing upstream). -/
def okAspirinBeh : AttemptBehavior :=
  ⟨.ok [⟨some 2244⟩], .ok [], fun _ => .ok (some ⟨.ok [("cid", .jnum 2244)]⟩)⟩

/-- Busy on attempts 1 and 2, success from attempt 3 on. -/
def busyTwiceBeh : Nat → AttemptBehavior :=
  fun i => if i ≤ 1 then busyBeh else okAspirinBeh

/-- Resolution succeeds at once but the full-record fetch raises a transient
busy error. -/
def fetchBusyBeh : AttemptBehavior :=
  ⟨.ok [⟨some 2244⟩], .ok [], fun _ => .error (.http "PUGREST.ServerBusy: Server Busy")⟩

/-- Fetch busy on attempt 1, full success from attempt 2 on. -/
def fetchRetryBeh : Nat → AttemptBehavior :=
  fun i => if i = 0 then fetchBusyBeh else okAspirinBeh

/-- Primary domain empty; the substance query returns a first entry with an
empty CID list and a second entry holding cid 5. -/
def subFallThroughBeh : AttemptBehavior :=
  ⟨.ok [], .ok [⟨true, []⟩, ⟨true, [5]⟩], fun _ => .ok none⟩

/-- Both domains come back empty without raising. -/
def notFoundBeh : AttemptBehavior :=
  ⟨.ok [], .ok [], fun _ => .ok none⟩

/-- Primary domain empty; the substance query's first entry holds cid 5. -/
def subOkBeh : AttemptBehavior :=
  ⟨.ok [], .ok [⟨true, [5]⟩], fun _ => .ok none⟩

/-- The projected dict produced from `okAspirinBeh`: only `cid` populated,
every other canonical key present and defaulted to absent. -/
def aspirinDict : List (String × Option JVal) :=
  [("cid", some (.jnum 2244)), ("iupac_name", none), ("molecular_formula", none),
   ("molecular_weight", none), ("monoisotopic_mass", none), ("synonyms", none),
   ("charge", none)]

/-! ### Helper lemmas -/

theorem handleError_transient_iff (name : String) (e : PcpError) :
    handleError name e = .transient ↔ isTransient e = true := by
  unfold handleError
  split
  · next h => simp [h]
  · next h => cases e <;> simp_all

theorem fetchStep_transient_iff (name : String) (b : AttemptBehavior) (cid : Int) :
    fetchStep name b cid = .transient ↔
      ∃ e, fetchError b cid = some e ∧ isTransient e = true := by
  unfold fetchStep fetchError
  split
  · next e _ => simp [handleError_transient_iff]
  · next fc _ =>
    cases compound_to_dict fc <;> simp

theorem runAttempt_transient_iff (name : String) (px : Option Proxies) (b : AttemptBehavior) :
    (runAttempt name px b).fst = .transient ↔
      ∃ e, attemptError b = some e ∧ isTransient e = true := by
  unfold runAttempt attemptError
  repeat' split
  all_goals
    simp [fetchStage, handleError_transient_iff, fetchStep_transient_iff]

theorem runAttempt_no_sleep (name : String) (px : Option Proxies) (b : AttemptBehavior)
    (s : Int) : Call.sleepRetry s ∉ (runAttempt name px b).snd := by
  unfold runAttempt
  repeat' split
  all_goals simp [fetchStage]

theorem runAttempt_proxies (name : String) (px : Option Proxies) (b : AttemptBehavior) :
    ∃ k, requestProxies (runAttempt name px b).snd = List.replicate k px := by
  unfold runAttempt
  repeat' split
  all_goals first
    | exact ⟨1, rfl⟩
    | exact ⟨2, rfl⟩
    | exact ⟨3, rfl⟩

theorem searchFrom_attempts_le (name : String) (px : Option Proxies)
    (beh : Nat → AttemptBehavior) (maxR : Nat) (d : Int) :
    ∀ fuel i, (searchFrom name px beh maxR d i fuel).attemptsUsed ≤ fuel := by
  intro fuel
  induction fuel with
  | zero => intro i; simp [searchFrom]
  | succ k ih =>
    intro i
    rcases hr : runAttempt name px (beh i) with ⟨st, tr⟩
    cases st with
    | done o => simp [searchFrom, hr]
    | transient =>
      have := ih (i + 1)
      simp [searchFrom, hr]
      omega

theorem searchFrom_sleep_eq (name : String) (px : Option Proxies)
    (beh : Nat → AttemptBehavior) (maxR : Nat) (d : Int) :
    ∀ fuel i s, Call.sleepRetry s ∈ (searchFrom name px beh maxR d i fuel).calls → s = d := by
  intro fuel
  induction fuel with
  | zero => intro i s hs; simp [searchFrom] at hs
  | succ k ih =>
    intro i s hs
    rcases hr : runAttempt name px (beh i) with ⟨st, tr⟩
    cases st with
    | done o =>
      rw [searchFrom, hr] at hs
      have := runAttempt_no_sleep name px (beh i) s
      rw [hr] at this
      exact absurd hs this
    | transient =>
      rw [searchFrom, hr] at hs
      simp only [List.mem_append, List.mem_cons] at hs
      rcases hs with hs | hs | hs
      · have := runAttempt_no_sleep name px (beh i) s
        rw [hr] at this
        exact absurd hs this
      · exact (Call.sleepRetry.injEq s d).mp hs
      · exact ih (i + 1) s hs

theorem search_done_immediate (name : String) (px : Option Proxies)
    (beh : Nat → AttemptBehavior) (maxR : Nat) (d : Int) (o : Outcome)
    (h : (runAttempt name px (beh 0)).fst = .done o) (hm : 1 ≤ maxR) :
    search_by_name_with_retries name px beh maxR d
      = ⟨o, 1, (runAttempt name px (beh 0)).snd⟩ := by
  obtain ⟨k, rfl⟩ : ∃ k, maxR = k + 1 := ⟨maxR - 1, by omega⟩
  unfold search_by_name_with_retries
  rcases hr : runAttempt name px (beh 0) with ⟨st, tr⟩
  rw [hr] at h
  simp only at h
  subst h
  rw [searchFrom, hr]

theorem searchFrom_proxies (name : String) (px : Option Proxies)
    (beh : Nat → AttemptBehavior) (maxR : Nat) (d : Int) :
    ∀ fuel i, ∃ k, requestProxies (searchFrom name px beh maxR d i fuel).calls
      = List.replicate k px := by
  intro fuel
  induction fuel with
  | zero => intro i; exact ⟨0, rfl⟩
  | succ n ih =>
    intro i
    rcases hr : runAttempt name px (beh i) with ⟨st, tr⟩
    obtain ⟨k1, hk1⟩ := runAttempt_proxies name px (beh i)
    rw [hr] at hk1
    simp only at hk1
    cases st with
    | done o => exact ⟨k1, by rw [searchFrom, hr]; exact hk1⟩
    | transient =>
      obtain ⟨k2, hk2⟩ := ih (i + 1)
      refine ⟨k1 + k2, ?_⟩
      rw [searchFrom, hr]
      simp only [requestProxies, List.filterMap_append, List.filterMap_cons] at *
      simp only [callProxies]
      rw [hk1, hk2, List.replicate_add]

theorem batch_results_eq (px : Option Proxies) (behs : String → Nat → AttemptBehavior) :
    ∀ names : List String,
      (search_compounds_by_name px behs names).results
        = names.map (fun n => (search_by_name_with_retries n px (behs n) 3 5).outcome) := by
  intro names
  induction names with
  | nil => rfl
  | cons n rest ih => simp [search_compounds_by_name, ih]

theorem batch_proxies (px : Option Proxies) (behs : String → Nat → AttemptBehavior) :
    ∀ names : List String,
      ∃ k, requestProxies (search_compounds_by_name px behs names).calls
        = List.replicate k px := by
  intro names
  induction names with
  | nil => exact ⟨0, rfl⟩
  | cons n rest ih =>
    obtain ⟨k1, hk1⟩ := searchFrom_proxies n px (behs n) 3 5 3 0
    obtain ⟨k2, hk2⟩ := ih
    refine ⟨k1 + k2, ?_⟩
    have hk1a : requestProxies (search_by_name_with_retries n px (behs n) 3 5).calls
        = List.replicate k1 px := hk1
    show requestProxies ((search_by_name_with_retries n px (behs n) 3 5).calls
        ++ (search_compounds_by_name px behs rest).calls) = _
    rw [requestProxies, List.filterMap_append, List.replicate_add]
    exact congrArg₂ (· ++ ·) hk1a hk2

theorem batch_pacing_eq (px : Option Proxies) (behs : String → Nat → AttemptBehavior) :
    ∀ names : List String,
      (search_compounds_by_name px behs names).pacing
        = List.replicate names.length PAUSE_BETWEEN_REQUESTS := by
  intro names
  induction names with
  | nil => rfl
  | cons n rest ih => simp [search_compounds_by_name, ih, List.replicate_succ]

theorem compound_to_dict_keys (oc : Option RawCompound) (d : List (String × Option JVal))
    (h : compound_to_dict oc = some d) : d.map Prod.fst = keys_to_ensure := by
  cases oc with
  | none => simp [compound_to_dict] at h
  | some c =>
    simp only [compound_to_dict] at h
    cases hd : c.toDictResult with
    | error m => rw [hd] at h; simp at h
    | ok props =>
      rw [hd] at h
      simp only [Option.some.injEq] at h
      subst h
      have hcomp : (Prod.fst ∘ fun k : String => (k, lookupProp props k)) = id := rfl
      rw [List.map_map, hcomp, List.map_id]

theorem handleError_shape (name : String) (e : PcpError) (o : Outcome)
    (h : handleError name e = .done o) : outcomeShape name o := by
  unfold handleError at h
  split at h
  · exact absurd h (by simp)
  · cases e <;>
      (simp only [AttemptStep.done.injEq] at h; subst h; simp [outcomeShape])

theorem fetchStep_shape (name : String) (b : AttemptBehavior) (cid : Int) (o : Outcome)
    (h : fetchStep name b cid = .done o) : outcomeShape name o := by
  unfold fetchStep at h
  split at h
  · next e _ => exact handleError_shape name e o h
  · next fc _ =>
    cases hd : compound_to_dict fc with
    | none =>
      rw [hd] at h
      simp only [AttemptStep.done.injEq] at h
      subst h
      simp [outcomeShape]
    | some d =>
      rw [hd] at h
      simp only [AttemptStep.done.injEq] at h
      subst h
      exact ⟨compound_to_dict_keys fc d hd, rfl⟩

theorem runAttempt_shape (name : String) (px : Option Proxies) (b : AttemptBehavior)
    (o : Outcome) (h : (runAttempt name px b).fst = .done o) : outcomeShape name o := by
  unfold runAttempt at h
  repeat' split at h
  all_goals simp only [fetchStage] at h
  · exact handleError_shape name _ o h
  · exact fetchStep_shape name b _ o h
  · exact handleError_shape name _ o h
  · exact fetchStep_shape name b _ o h
  all_goals
    simp only [AttemptStep.done.injEq] at h
    subst h
    simp [outcomeShape, notFoundOutcome]

theorem searchFrom_shape (name : String) (px : Option Proxies)
    (beh : Nat → AttemptBehavior) (maxR : Nat) (d : Int) :
    ∀ fuel i, outcomeShape name (searchFrom name px beh maxR d i fuel).outcome := by
  intro fuel
  induction fuel with
  | zero => intro i; simp [searchFrom, outcomeShape]
  | succ k ih =>
    intro i
    rcases hr : runAttempt name px (beh i) with ⟨st, tr⟩
    cases st with
    | done o =>
      rw [searchFrom, hr]
      have hfst : (runAttempt name px (beh i)).fst = .done o := by rw [hr]
      exact runAttempt_shape name px (beh i) o hfst
    | transient =>
      rw [searchFrom, hr]
      exact ih (i + 1)

/-! ### Claim theorems -/

/-- C1: for every input list of names the batch `search_compounds_by_name`
returns one outcome per name, in input order: the result list is exactly the
input list mapped through the single-name search, so no per-name failure
(NotFound, TransientFailure, FetchError, or any exception routed into a
failure dict) interrupts the remaining names or perturbs the ordering. -/
theorem batch_one_outcome_per_name_in_order (px : Option Proxies)
    (behs : String → Nat → AttemptBehavior) (names : List String) :
    (search_compounds_by_name px behs names).results.length = names.length
    ∧ (search_compounds_by_name px behs names).results
        = names.map (fun n => (search_by_name_with_retries n px (behs n) 3 5).outcome) := by
  refine ⟨?_, batch_results_eq px behs names⟩
  rw [batch_results_eq px behs names, List.length_map]

/-- C2: a transient busy error on attempts 1 and 2 with success on attempt 3
yields the successful record when `max_retries = 3`; the identical upstream
behaviour with `max_retries = 2` yields the exhausted-retries
TransientFailure outcome, which differs from the NotFound outcome. -/
theorem transient_retry_outcomes :
    (search_by_name_with_retries "Aspirin" none busyTwiceBeh 3 5).outcome
      = .success aspirinDict "Aspirin"
    ∧ (search_by_name_with_retries "Aspirin" none busyTwiceBeh 2 5).outcome
      = .failure "Failed to get data for \x27Aspirin\x27 after 2 retries." "Aspirin"
    ∧ Outcome.failure "Failed to get data for \x27Aspirin\x27 after 2 retries." "Aspirin"
      ≠ notFoundOutcome "Aspirin" := by
  exact ⟨by decide, by decide, by decide⟩

/-- C4: an attempt hits the retry branch exactly when the exception it
raises is a transient busy/503 server error; the executed attempts never
exceed `max_retries`, every retry sleep uses the fixed `retry_delay`, and an
attempt that returns (any other exception, a clean NotFound, or success)
ends the search at once with exactly one attempt consumed. -/
theorem retry_iff_transient (name : String) (px : Option Proxies) :
    (∀ b : AttemptBehavior,
        ((runAttempt name px b).fst = .transient ↔
          ∃ e, attemptError b = some e ∧ isTransient e = true))
    ∧ (∀ (beh : Nat → AttemptBehavior) (maxR : Nat) (d : Int),
        (search_by_name_with_retries name px beh maxR d).attemptsUsed ≤ maxR
        ∧ (∀ s, Call.sleepRetry s ∈ (search_by_name_with_retries name px beh maxR d).calls →
            s = d)
        ∧ (∀ o, (runAttempt name px (beh 0)).fst = .done o → 1 ≤ maxR →
            search_by_name_with_retries name px beh maxR d
              = ⟨o, 1, (runAttempt name px (beh 0)).snd⟩)) := by
  refine ⟨runAttempt_transient_iff name px, fun beh maxR d => ⟨?_, ?_, ?_⟩⟩
  · exact searchFrom_attempts_le name px beh maxR d maxR 0
  · exact fun s => searchFrom_sleep_eq name px beh maxR d maxR 0 s
  · exact fun o h hm => search_done_immediate name px beh maxR d o h hm

theorem retry_iff_transient_witness :
    search_by_name_with_retries "X" none (fun _ => notFoundBeh) 3 5
      = ⟨notFoundOutcome "X", 1, [Call.primaryQ "X" none, Call.secondaryQ "X" none]⟩ :=
  ((retry_iff_transient "X" none).2 (fun _ => notFoundBeh) 3 5).2.2
    (notFoundOutcome "X") (by decide) (by decide)

/-- C5: when the primary Compound-domain query returns a first result with a
populated (present and nonzero) cid, the attempt fetches exactly that cid
and never issues a substance-domain query. -/
theorem primary_hit_skips_secondary (name : String) (px : Option Proxies)
    (b : AttemptBehavior) (c : PCCompound) (cs : List PCCompound) (n : Int)
    (hg : b.getCompounds = .ok (c :: cs)) (hc : c.cid = some n) (hn : n ≠ 0) :
    runAttempt name px b
      = (fetchStep name b n, [Call.primaryQ name px, Call.fetchQ n px])
    ∧ ∀ p, Call.secondaryQ name p ∉ (runAttempt name px b).snd := by
  have hbne : (n != 0) = true := by simpa [bne_iff_ne] using hn
  have hp : primaryCid (c :: cs) = some n := by
    simp [primaryCid, cidTruthy, hc, hbne]
  have hra : runAttempt name px b
      = (fetchStep name b n, [Call.primaryQ name px, Call.fetchQ n px]) := by
    simp [runAttempt, hg, hp, fetchStage]
  refine ⟨hra, fun p => ?_⟩
  rw [hra]
  simp

theorem primary_hit_skips_secondary_witness :
    runAttempt "Aspirin" none okAspirinBeh
      = (fetchStep "Aspirin" okAspirinBeh 2244,
         [Call.primaryQ "Aspirin" none, Call.fetchQ 2244 none]) :=
  (primary_hit_skips_secondary "Aspirin" none okAspirinBeh
    ⟨some 2244⟩ [] 2244 rfl rfl (by decide)).1

/-- C8: the batch applies the 2.0 s pacing pause once per processed name
(hence between every pair of consecutive names), whatever each lookup did,
so a batch of 3 names accumulates at least 4.0 s of pacing delay. -/
theorem batch_pacing_delay (px : Option Proxies)
    (behs : String → Nat → AttemptBehavior) (names : List String) :
    (search_compounds_by_name px behs names).pacing
      = List.replicate names.length PAUSE_BETWEEN_REQUESTS
    ∧ (names.length = 3 →
        4 ≤ (search_compounds_by_name px behs names).pacing.sum) := by
  refine ⟨batch_pacing_eq px behs names, fun h3 => ?_⟩
  rw [batch_pacing_eq px behs names, h3]
  norm_num [List.sum_replicate, PAUSE_BETWEEN_REQUESTS]

theorem batch_pacing_delay_witness :
    4 ≤ (search_compounds_by_name none (fun _ _ => notFoundBeh) ["a", "b", "c"]).pacing.sum :=
  (batch_pacing_delay none (fun _ _ => notFoundBeh) ["a", "b", "c"]).2 rfl

/-- C3 counterexample: resolution succeeds on attempt 1 (the primary query
returns cid 2244 and the fetch request is issued, as the trace shows), the
full-record fetch raises a transient busy error, and the code sleeps and
spends a second attempt: the retry budget is consumed by a fetch failure,
refuting "never retried ... for every upstream behavior". -/
theorem fetch_retry_budget_cex :
    search_by_name_with_retries "Aspirin" none fetchRetryBeh 3 5
      = ⟨.success aspirinDict "Aspirin", 2,
         [Call.primaryQ "Aspirin" none, Call.fetchQ 2244 none, Call.sleepRetry 5,
          Call.primaryQ "Aspirin" none, Call.fetchQ 2244 none]⟩
    ∧ (fetchRetryBeh 0).from_cid 2244
      = .error (.http "PUGREST.ServerBusy: Server Busy") := by
  exact ⟨by decide, rfl⟩

/-- C3 amended: a fetch failure after successful resolution is reported as a
per-item failure outcome without retry exactly when it is not a transient
busy/503 error (an unusable record always is); a transient error raised by
the full-record fetch hits the retry branch, because the retry loop wraps
the whole attempt including the fetch.  A returning attempt always ends the
search with exactly one attempt consumed. -/
theorem fetch_failure_no_retry_unless_transient (name : String) (px : Option Proxies)
    (b : AttemptBehavior) (cid : Int) :
    (∀ e, b.from_cid cid = .error e →
        fetchStep name b cid = handleError name e
        ∧ (fetchStep name b cid = .transient ↔ isTransient e = true))
    ∧ (∀ fc, b.from_cid cid = .ok fc → compound_to_dict fc = none →
        fetchStep name b cid
          = .done (.failure
              (s!"Could not process full record for \x27{name}\x27 (CID: {cid}).") name))
    ∧ (∀ (beh : Nat → AttemptBehavior) (maxR : Nat) (d : Int) (o : Outcome),
        (runAttempt name px (beh 0)).fst = .done o → 1 ≤ maxR →
        (search_by_name_with_retries name px beh maxR d).attemptsUsed = 1) := by
  refine ⟨fun e he => ?_, fun fc hfc hcd => ?_, fun beh maxR d o h hm => ?_⟩
  · have h1 : fetchStep name b cid = handleError name e := by
      unfold fetchStep
      rw [he]
    exact ⟨h1, by rw [h1]; exact handleError_transient_iff name e⟩
  · simp [fetchStep, hfc, hcd]
  · rw [search_done_immediate name px beh maxR d o h hm]

theorem fetch_failure_no_retry_unless_transient_witness :
    fetchStep "Aspirin" fetchBusyBeh 2244
      = handleError "Aspirin" (.http "PUGREST.ServerBusy: Server Busy") :=
  ((fetch_failure_no_retry_unless_transient "Aspirin" none fetchBusyBeh 2244).1
    (.http "PUGREST.ServerBusy: Server Busy") rfl).1

/-- C6 counterexample: the substance query returns two entries and the
second one's identifier list is non-empty, yet because the FIRST entry's
list is empty the attempt falls through to NotFound and issues no fetch. -/
theorem substance_any_entry_cex :
    subFallThroughBeh.get_cids = .ok [⟨true, []⟩, ⟨true, [5]⟩]
    ∧ (∃ en ∈ [(⟨true, []⟩ : SubstanceEntry), ⟨true, [5]⟩],
        en.hasCID = true ∧ en.cids ≠ [])
    ∧ runAttempt "X" none subFallThroughBeh
        = (.done (notFoundOutcome "X"),
           [Call.primaryQ "X" none, Call.secondaryQ "X" none]) := by
  refine ⟨rfl, ⟨⟨true, [5]⟩, by simp, rfl, by simp⟩, by decide⟩

/-- C6 amended: after a primary miss the resolver queries the substance
domain and inspects only the FIRST entry: when that entry has a `CID` key
with a non-empty list whose first identifier is nonzero, the attempt
proceeds to fetch that identifier; when the first entry yields no usable
identifier the attempt is NotFound even if later entries hold identifiers. -/
theorem substance_first_entry_resolves :
    (∀ (name : String) (px : Option Proxies) (b : AttemptBehavior)
        (cs : List PCCompound) (e0 : SubstanceEntry) (rest : List SubstanceEntry)
        (c0 : Int) (cs0 : List Int),
        b.getCompounds = .ok cs → primaryCid cs = none →
        b.get_cids = .ok (e0 :: rest) → e0.hasCID = true →
        e0.cids = c0 :: cs0 → c0 ≠ 0 →
        runAttempt name px b
          = (fetchStep name b c0,
             [Call.primaryQ name px, Call.secondaryQ name px, Call.fetchQ c0 px]))
    ∧ (∀ (name : String) (px : Option Proxies) (b : AttemptBehavior)
        (cs : List PCCompound) (entries : List SubstanceEntry),
        b.getCompounds = .ok cs → primaryCid cs = none →
        b.get_cids = .ok entries →
        (substanceCid entries = none ∨ substanceCid entries = some 0) →
        runAttempt name px b
          = (.done (notFoundOutcome name),
             [Call.primaryQ name px, Call.secondaryQ name px])) := by
  constructor
  · intro name px b cs e0 rest c0 cs0 hg hp hs hk hc hn
    have hbne : (c0 != 0) = true := by simpa [bne_iff_ne] using hn
    have hsc : substanceCid (e0 :: rest) = some c0 := by
      simp [substanceCid, hk, hc]
    simp [runAttempt, hg, hp, hs, hsc, hbne, fetchStage]
  · intro name px b cs entries hg hp hs hsc
    rcases hsc with hsc | hsc <;> simp [runAttempt, hg, hp, hs, hsc]

theorem substance_first_entry_resolves_witness :
    runAttempt "X" none subOkBeh
      = (fetchStep "X" subOkBeh 5,
         [Call.primaryQ "X" none, Call.secondaryQ "X" none, Call.fetchQ 5 none]) :=
  substance_first_entry_resolves.1 "X" none subOkBeh [] ⟨true, [5]⟩ [] 5 []
    rfl rfl rfl rfl rfl (by decide)

/-- C7: with `use_proxy = false` the module-level proxies value is `None`
regardless of the other proxy fields, and every outbound request issued by
any batch (primary search, substance search, full-record fetch) then
carries no proxy configuration. -/
theorem proxy_disabled_no_proxy (cfg : ProxyConfig) (h : cfg.use_proxy = false) :
    buildProxies cfg = none
    ∧ ∀ (behs : String → Nat → AttemptBehavior) (names : List String)
        (q : Option Proxies),
        q ∈ requestProxies (search_compounds_by_name (buildProxies cfg) behs names).calls →
        q = none := by
  have hb : buildProxies cfg = none := by simp [buildProxies, h]
  refine ⟨hb, fun behs names q hq => ?_⟩
  rw [hb] at hq
  obtain ⟨k, hk⟩ := batch_proxies none behs names
  rw [hk] at hq
  exact List.eq_of_mem_replicate hq

theorem proxy_disabled_no_proxy_witness :
    buildProxies ⟨false, "socks5h", "127.0.0.1", 9050⟩ = none :=
  (proxy_disabled_no_proxy ⟨false, "socks5h", "127.0.0.1", 9050⟩ rfl).1

/-- C9: every outcome returned for a name has exactly one of two shapes: a
success dict whose keys are precisely the canonical attribute keys (fields
missing upstream default to absent rather than failing the fetch) with
`search_term` equal to the queried name and no `error` key, or a failure
dict holding an error text and `compound_name` equal to the original
query. -/
theorem outcome_two_shapes (name : String) (px : Option Proxies)
    (beh : Nat → AttemptBehavior) (maxR : Nat) (d : Int) :
    (∀ props st,
        (search_by_name_with_retries name px beh maxR d).outcome = .success props st →
        props.map Prod.fst = keys_to_ensure ∧ st = name
        ∧ (serializeOutcome (.success props st)).map Prod.fst
            = keys_to_ensure ++ ["search_term"]
        ∧ "error" ∉ (serializeOutcome (.success props st)).map Prod.fst)
    ∧ (∀ err cn,
        (search_by_name_with_retries name px beh maxR d).outcome = .failure err cn →
        cn = name
        ∧ (serializeOutcome (.failure err cn)).map Prod.fst = ["error", "compound_name"])
    ∧ (∀ (c : RawCompound) (props : List (String × JVal)),
        c.toDictResult = .ok props →
        compound_to_dict (some c)
          = some (keys_to_ensure.map (fun k => (k, lookupProp props k)))) := by
  have hshape : outcomeShape name (search_by_name_with_retries name px beh maxR d).outcome :=
    searchFrom_shape name px beh maxR d maxR 0
  refine ⟨fun props st hs => ?_, fun err cn hf => ?_, fun c props hc => ?_⟩
  · rw [hs] at hshape
    obtain ⟨hk, hst⟩ := hshape
    have hser : (serializeOutcome (.success props st)).map Prod.fst
        = keys_to_ensure ++ ["search_term"] := by
      show (props ++ [("search_term", some (JVal.jstr st))]).map Prod.fst = _
      rw [List.map_append, hk]
      rfl
    refine ⟨hk, hst, hser, ?_⟩
    rw [hser]
    decide
  · rw [hf] at hshape
    exact ⟨hshape, rfl⟩
  · simp [compound_to_dict, hc]

theorem outcome_two_shapes_witness :
    aspirinDict.map Prod.fst = keys_to_ensure :=
  ((outcome_two_shapes "Aspirin" none (fun _ => okAspirinBeh) 3 5).1
    aspirinDict "Aspirin" (by decide)).1

/-- C10: a failed startup proxy check (a RequestException raised by the
identity request: timeout, connection refused, unsupported scheme) logs
critical diagnostics but does not abort: the server object is still created,
the configured proxies stay in force, and every request of any later batch
still carries exactly those configured proxies. -/
theorem proxy_check_nonfatal (cfg : ProxyConfig) (msg : String)
    (hp : cfg.use_proxy = true) :
    (startupCheck cfg (.requestError msg)).aborted = false
    ∧ (startupCheck cfg (.requestError msg)).serverStarted = true
    ∧ LogLevel.critical ∈ (startupCheck cfg (.requestError msg)).checkLog
    ∧ (startupCheck cfg (.requestError msg)).proxies = buildProxies cfg
    ∧ ∀ (behs : String → Nat → AttemptBehavior) (names : List String)
        (q : Option Proxies),
        q ∈ requestProxies
            (search_compounds_by_name
              (startupCheck cfg (.requestError msg)).proxies behs names).calls →
        q = buildProxies cfg := by
  refine ⟨rfl, rfl, ?_, rfl, fun behs names q hq => ?_⟩
  · simp [startupCheck, hp]
  · have hpx : (startupCheck cfg (.requestError msg)).proxies = buildProxies cfg := rfl
    rw [hpx] at hq
    obtain ⟨k, hk⟩ := batch_proxies (buildProxies cfg) behs names
    rw [hk] at hq
    exact List.eq_of_mem_replicate hq

theorem proxy_check_nonfatal_witness :
    (startupCheck ⟨true, "socks5h", "127.0.0.1", 9050⟩ (.requestError "timeout")).aborted
      = false :=
  (proxy_check_nonfatal ⟨true, "socks5h", "127.0.0.1", 9050⟩ "timeout" rfl).1

end PubChem
